import Mathlib

/-!
Verification of `src/include/common.hpp` (a C preprocessor utility header).

The header contains no runtime code: it is a sequence of preprocessor
directives (`#ifndef`, `#define`, `#ifdef`) that install macro definitions
into the translation unit that includes it.  We embed this shallowly:

* a macro definition (`MacroDef`) records whether the macro is object-like
  or function-like (its parameter list), whether it is variadic, and its
  replacement body as a list of tokens;
* the preprocessor state is an association list from macro names to their
  definitions (`MacroTable`); `#define` prepends a binding, name lookup
  takes the most recent one;
* processing the header once is the function `processCommonHpp`, a direct
  transcription of the directive sequence of `common.hpp` lines 1-30;
* macro expansion (rescanning) is the fuel-bounded function `expandTok`;
* the value semantics of the `likely` / `unlikely` expansions on scalar
  expressions is given over `Int` (`bangBang`, `builtin_expect`).
-/

/-- A replacement-list token: literal punctuation/text, an identifier
(subject to macro replacement), or a function-like macro invocation with
its comma-separated argument token lists. -/
inductive Tok where
  | lit : String → Tok
  | id : String → Tok
  | call : String → List (List Tok) → Tok

/-- A preprocessor macro definition: `params = none` for an object-like
macro, `params = some ps` for a function-like macro with named parameters
`ps`; `variadic` marks `...` / GNU named-variadic parameters; `body` is
the replacement token list. -/
structure MacroDef where
  params : Option (List String)
  variadic : Bool
  body : List Tok

/-- The preprocessor macro state: most recent `#define` first. -/
abbrev MacroTable := List (String × MacroDef)

/-- Look up the current definition of macro name `n`. -/
def lookupMac : MacroTable → String → Option MacroDef
  | [], _ => none
  | (k, v) :: rest, n => if k = n then some v else lookupMac rest n

/-- `#define n d`: install a definition (shadowing any earlier one). -/
def defineMac (tbl : MacroTable) (n : String) (d : MacroDef) : MacroTable :=
  (n, d) :: tbl

/-- `#ifdef n` / `defined(n)`: is macro `n` currently defined? -/
def isDefinedMac (tbl : MacroTable) (n : String) : Bool :=
  (lookupMac tbl n).isSome

/-- Definition installed by line 7: `#define likely(x) __builtin_expect(!!(x), 1)`. -/
def likelyDef : MacroDef :=
  ⟨some ["x"], false, [Tok.id "__builtin_expect", Tok.lit "(!!(", Tok.id "x", Tok.lit "), 1)"]⟩

/-- Definition installed by line 8: `#define unlikely(x) __builtin_expect(!!(x), 0)`. -/
def unlikelyDef : MacroDef :=
  ⟨some ["x"], false, [Tok.id "__builtin_expect", Tok.lit "(!!(", Tok.id "x", Tok.lit "), 0)"]⟩

/-- Definition installed by line 25 when `__DEBUG` is defined:
`#define DEBUG(format, args...) printf("FILE: " __FILE__ ", LINE: %d: " format "\n", __LINE__, ##args)`. -/
def debugOnDef : MacroDef :=
  ⟨some ["format", "args"], true,
    [Tok.id "printf", Tok.lit "(\"FILE: \" ", Tok.id "__FILE__",
     Tok.lit " \", LINE: %d: \" ", Tok.id "format", Tok.lit " \"\\n\", ",
     Tok.id "__LINE__", Tok.lit ", ##", Tok.id "args", Tok.lit ")"]⟩

/-- Definition installed by line 27 when `__DEBUG` is not defined:
`#define DEBUG(format, ...)` (empty replacement list). -/
def debugOffDef : MacroDef :=
  ⟨some ["format"], true, []⟩

/-- Processing the whole of `common.hpp` once, directive by directive.
Line 3 `#ifndef COMMON_HPP` guards the entire body (line 30 `#endif`);
line 4 defines the guard symbol; lines 6-9 define `likely` / `unlikely`
only when `likely` is not already defined; lines 11-21 define the
attribute wrappers, cacheline constants and feature flags; line 23 is the
commented-out `//#define __DEBUG`, so `__DEBUG` is only defined if the
including context defined it, and lines 24-28 pick the `DEBUG` definition
accordingly.  (Line 1 `#pragma once` also suppresses textual re-inclusion
of the same file; the `#ifndef` guard alone already makes reprocessing a
no-op, which is what we model.) -/
def processCommonHpp (tbl : MacroTable) : MacroTable :=
  if isDefinedMac tbl "COMMON_HPP" then tbl
  else
    let t := defineMac tbl "COMMON_HPP" ⟨none, false, []⟩
    let t := if isDefinedMac t "likely" then t
      else defineMac (defineMac t "likely" likelyDef) "unlikely" unlikelyDef
    let t := defineMac t "ATTRIBUTE_NEVER_INLINE" ⟨none, false, [Tok.lit "__attribute__((noinline))"]⟩
    let t := defineMac t "ATTRIBUTE_ALWAYS_INLINE" ⟨none, false, [Tok.lit "__attribute__((always_inline))"]⟩
    let t := defineMac t "ATTRIBUTE_HIDDEN" ⟨none, false, [Tok.lit "__attribute__((visibility(\"hidden\")))"]⟩
    let t := defineMac t "ATTRIBUTE_EXPORT" ⟨none, false, [Tok.lit "__attribute__((visibility(\"default\")))"]⟩
    let t := defineMac t "ATTRIBUTE_ALIGNED"
      ⟨some ["s"], false, [Tok.lit "__attribute__((aligned(", Tok.id "s", Tok.lit ")))"]⟩
    let t := defineMac t "CACHELINE_SIZE" ⟨none, false, [Tok.lit "64"]⟩
    let t := defineMac t "CACHELINE_ALIGNED"
      ⟨none, false, [Tok.call "ATTRIBUTE_ALIGNED" [[Tok.id "CACHELINE_SIZE"]]]⟩
    let t := defineMac t "CACHELINE_ALIGNED_FN" ⟨none, false, [Tok.id "CACHELINE_ALIGNED"]⟩
    let t := defineMac t "USE_COMPRESSED_PTRS" ⟨none, false, [Tok.lit "0"]⟩
    let t := defineMac t "USE_SIZE_CACHES" ⟨none, false, [Tok.lit "0"]⟩
    let t := if isDefinedMac t "__DEBUG" then defineMac t "DEBUG" debugOnDef
      else defineMac t "DEBUG" debugOffDef
    t

/-- Position of parameter `n` in the parameter list `ps`. -/
def paramIndex (ps : List String) (n : String) : Option Nat :=
  match ps with
  | [] => none
  | p :: rest => if p = n then some 0 else (paramIndex rest n).map Nat.succ

/-- Substitute the argument token lists `args` for the named parameters
`ps` in a replacement body.  (In `common.hpp` every parameter occurrence
in a replacement body is at the top level of the token list, so top-level
substitution is exact for this header.) -/
def substParams (ps : List String) (args : List (List Tok)) : List Tok → List Tok
  | [] => []
  | Tok.id n :: rest =>
    match paramIndex ps n with
    | some i => args.getD i [Tok.id n] ++ substParams ps args rest
    | none => Tok.id n :: substParams ps args rest
  | t :: rest => t :: substParams ps args rest

/-- Fuel-bounded macro expansion (rescanning) of one token against a
macro table.  An identifier naming an object-like macro is replaced by
its (recursively expanded) body; a call token naming a function-like
macro has its arguments expanded, substituted into the body, and the
result rescanned; everything else is left in place. -/
def expandTok (tbl : MacroTable) : Nat → Tok → List Tok
  | 0, t => [t]
  | _ + 1, Tok.lit s => [Tok.lit s]
  | fuel + 1, Tok.id n =>
    match lookupMac tbl n with
    | some d =>
      match d.params with
      | none => (d.body.map (expandTok tbl fuel)).flatten
      | some _ => [Tok.id n]
    | none => [Tok.id n]
  | fuel + 1, Tok.call f args =>
    match lookupMac tbl f with
    | some d =>
      match d.params with
      | some ps =>
        let args2 := args.map (fun a => (a.map (expandTok tbl fuel)).flatten)
        ((substParams ps args2 d.body).map (expandTok tbl fuel)).flatten
      | none => [Tok.call f args]
    | none => [Tok.call f args]

/-- Expand a token list (each token independently, concatenating). -/
def expandToks (tbl : MacroTable) (fuel : Nat) (ts : List Tok) : List Tok :=
  (ts.map (expandTok tbl fuel)).flatten

/-- Render a fully expanded token to its source text; `none` if an
unexpanded function-like invocation remains. -/
def renderFlatTok : Tok → Option String
  | Tok.lit s => some s
  | Tok.id s => some s
  | Tok.call _ _ => none

/-- Render a fully expanded token list to its source text. -/
def renderFlat : List Tok → Option String
  | [] => some ""
  | t :: rest =>
    match renderFlatTok t, renderFlat rest with
    | some a, some b => some (a ++ b)
    | _, _ => none

/-- Value of a decimal digit character. -/
def digitVal (c : Char) : Option Nat :=
  if '0' ≤ c ∧ c ≤ '9' then some (c.toNat - '0'.toNat) else none

/-- Accumulating decimal reader over a character list. -/
def decNatAux (acc : Nat) : List Char → Option Nat
  | [] => some acc
  | c :: cs =>
    match digitVal c with
    | some d => decNatAux (acc * 10 + d) cs
    | none => none

/-- Numeric reading of a nonempty decimal literal string. -/
def litNatValue (s : String) : Option Nat :=
  match s.data with
  | [] => none
  | c :: cs => decNatAux 0 (c :: cs)

/-- Numeric reading of an object-like macro whose body is a single
decimal literal token. -/
def macroNatValue (tbl : MacroTable) (n : String) : Option Nat :=
  match lookupMac tbl n with
  | some ⟨none, _, [Tok.lit s]⟩ => litNatValue s
  | _ => none

/-- The value of the C expression `!!(x)` on a scalar `x`: 1 when `x` is
nonzero, 0 when `x` is zero. -/
def bangBang (x : Int) : Int := if x = 0 then 0 else 1

/-- The GCC intrinsic `__builtin_expect(x, c)` returns its first argument;
the second is only a prediction hint. -/
def builtin_expect (x _c : Int) : Int := x

/-- Value of `likely(x)` after macro expansion: `__builtin_expect(!!(x), 1)`. -/
def likelyVal (x : Int) : Int := builtin_expect (bangBang x) 1

/-- Value of `unlikely(x)` after macro expansion: `__builtin_expect(!!(x), 0)`. -/
def unlikelyVal (x : Int) : Int := builtin_expect (bangBang x) 0

/-- The shipped default inclusion context: nothing defined before the
header is included, and `__DEBUG` left undefined (line 23 of the header
is the commented-out `//#define __DEBUG`). -/
def commonHppDefault : MacroTable := processCommonHpp []

/-- The macro-name list enumerated by the spec (section 6, External
Interfaces) as the exact set of names the header exports, in the spec's
order.  This transcribes the spec's words, for comparison with the names
actually installed by `processCommonHpp`. -/
def specExportedMacroNames : List String :=
  ["likely", "unlikely", "ATTRIBUTE_NEVER_INLINE", "ATTRIBUTE_ALWAYS_INLINE",
   "ATTRIBUTE_HIDDEN", "ATTRIBUTE_EXPORT", "ATTRIBUTE_ALIGNED", "CACHELINE_SIZE",
   "CACHELINE_ALIGNED", "CACHELINE_ALIGNED_FN", "USE_COMPRESSED_PTRS",
   "USE_SIZE_CACHES", "DEBUG"]

theorem processCommonHpp_guard_defined (tbl : MacroTable) :
    isDefinedMac (processCommonHpp tbl) "COMMON_HPP" = true := by
  unfold processCommonHpp
  split
  · assumption
  · dsimp only [defineMac]
    split <;> split <;> rfl

/-- C1: the constant macro `CACHELINE_SIZE` defined by the header equals
64: in any inclusion context that has not yet defined the guard symbol,
processing the header installs `CACHELINE_SIZE` as an object-like macro
whose replacement list is the single literal `64`, and its numeric value
reads as 64. -/
theorem cacheline_size_is_64 (tbl : MacroTable)
    (h : isDefinedMac tbl "COMMON_HPP" = false) :
    lookupMac (processCommonHpp tbl) "CACHELINE_SIZE"
        = some ⟨none, false, [Tok.lit "64"]⟩ ∧
    macroNatValue (processCommonHpp tbl) "CACHELINE_SIZE" = some 64 := by
  unfold isDefinedMac at h
  have h1 : lookupMac (processCommonHpp tbl) "CACHELINE_SIZE"
      = some ⟨none, false, [Tok.lit "64"]⟩ := by
    simp [processCommonHpp, defineMac, isDefinedMac, lookupMac, h]
    split
    all_goals split
    all_goals simp [lookupMac]
  refine ⟨h1, ?_⟩
  unfold macroNatValue
  rw [h1]
  rfl

theorem cacheline_size_is_64_witness :
    lookupMac (processCommonHpp []) "CACHELINE_SIZE"
        = some ⟨none, false, [Tok.lit "64"]⟩ ∧
    macroNatValue (processCommonHpp []) "CACHELINE_SIZE" = some 64 :=
  cacheline_size_is_64 [] rfl

/-- C2: inclusion of the header is idempotent.  Processing the header a
second time finds the guard symbol `COMMON_HPP` already defined (line 3
`#ifndef COMMON_HPP` fails), so the second pass leaves every macro
definition of the state unchanged, whatever the original context was. -/
theorem common_hpp_include_idempotent (tbl : MacroTable) :
    processCommonHpp (processCommonHpp tbl) = processCommonHpp tbl := by
  rw [processCommonHpp]
  simp [processCommonHpp_guard_defined]

/-- C3: the definition `DEBUG` receives depends on whether `__DEBUG` is
defined at the point the header is processed: with `__DEBUG` defined it
becomes the `printf` of the file name, line number and given format with
its arguments (line 25); with `__DEBUG` undefined it becomes the macro
with the empty replacement list (line 27), i.e. it expands to nothing. -/
theorem debug_macro_conditional_definition (tbl : MacroTable)
    (h : isDefinedMac tbl "COMMON_HPP" = false) :
    (isDefinedMac tbl "__DEBUG" = true →
      lookupMac (processCommonHpp tbl) "DEBUG" = some debugOnDef) ∧
    (isDefinedMac tbl "__DEBUG" = false →
      lookupMac (processCommonHpp tbl) "DEBUG" = some debugOffDef) := by
  unfold isDefinedMac at h
  constructor <;> intro hd <;> unfold isDefinedMac at hd <;>
    simp [processCommonHpp, defineMac, isDefinedMac, lookupMac, h]
  all_goals split
  all_goals simp [lookupMac, hd]

theorem debug_macro_conditional_definition_witness :
    lookupMac (processCommonHpp [("__DEBUG", MacroDef.mk none false [])]) "DEBUG"
      = some debugOnDef :=
  (debug_macro_conditional_definition [("__DEBUG", MacroDef.mk none false [])] rfl).1 rfl

/-- C4: both compile-time feature-toggle flags are disabled by default:
after including the header as shipped, `USE_COMPRESSED_PTRS` and
`USE_SIZE_CACHES` are object-like macros with body `0`, and both read
numerically as 0. -/
theorem feature_flags_disabled_by_default :
    lookupMac commonHppDefault "USE_COMPRESSED_PTRS"
        = some ⟨none, false, [Tok.lit "0"]⟩ ∧
    lookupMac commonHppDefault "USE_SIZE_CACHES"
        = some ⟨none, false, [Tok.lit "0"]⟩ ∧
    macroNatValue commonHppDefault "USE_COMPRESSED_PTRS" = some 0 ∧
    macroNatValue commonHppDefault "USE_SIZE_CACHES" = some 0 :=
  ⟨rfl, rfl, rfl, rfl⟩

/-- C5: `CACHELINE_ALIGNED_FN` is an alias of the same attribute as
`CACHELINE_ALIGNED`: their full macro expansions coincide, coincide with
the expansion of `ATTRIBUTE_ALIGNED(CACHELINE_SIZE)`, and render to the
attribute text `__attribute__((aligned(64)))`. -/
theorem cacheline_aligned_fn_same_attribute :
    expandToks commonHppDefault 8 [Tok.id "CACHELINE_ALIGNED_FN"]
        = expandToks commonHppDefault 8 [Tok.id "CACHELINE_ALIGNED"] ∧
    expandToks commonHppDefault 8 [Tok.id "CACHELINE_ALIGNED"]
        = expandToks commonHppDefault 8
            [Tok.call "ATTRIBUTE_ALIGNED" [[Tok.id "CACHELINE_SIZE"]]] ∧
    renderFlat (expandToks commonHppDefault 8 [Tok.id "CACHELINE_ALIGNED_FN"])
        = some "__attribute__((aligned(64)))" :=
  ⟨rfl, rfl, rfl⟩

/-- C6: `likely` and `unlikely` each wrap `__builtin_expect` around their
argument, with expected value 1 for `likely` and 0 for `unlikely`: the
installed definitions are exactly those of lines 7-8, and invoking either
on any condition expression `s` (an arbitrary macro-free token) expands
to `__builtin_expect(!!(s), 1)` resp. `__builtin_expect(!!(s), 0)`. -/
theorem likely_unlikely_wrap_builtin_expect (s : String) :
    lookupMac commonHppDefault "likely" = some likelyDef ∧
    lookupMac commonHppDefault "unlikely" = some unlikelyDef ∧
    expandToks commonHppDefault 8 [Tok.call "likely" [[Tok.lit s]]]
        = [Tok.id "__builtin_expect", Tok.lit "(!!(", Tok.lit s, Tok.lit "), 1)"] ∧
    expandToks commonHppDefault 8 [Tok.call "unlikely" [[Tok.lit s]]]
        = [Tok.id "__builtin_expect", Tok.lit "(!!(", Tok.lit s, Tok.lit "), 0)"] :=
  ⟨rfl, rfl, rfl, rfl⟩

/-- C7 counterexample: the claim "no other name is defined by including
the header" fails, because including the header also defines its include
guard symbol: after processing in the empty context, `COMMON_HPP` is a
defined macro name, yet it is not in the spec's enumerated export list. -/
theorem header_defines_guard_name_counterexample :
    (commonHppDefault.map Prod.fst).contains "COMMON_HPP" = true ∧
    specExportedMacroNames.contains "COMMON_HPP" = false :=
  ⟨rfl, rfl⟩

/-- C7 amended: the macro names defined by including the header in the
empty context are exactly the thirteen names of the spec's export list
(in most-recently-defined-first order) together with the include-guard
symbol `COMMON_HPP` — no further name is defined. -/
theorem exported_macro_names_amended :
    commonHppDefault.map Prod.fst
      = specExportedMacroNames.reverse ++ ["COMMON_HPP"] :=
  rfl

/-- C8: in the default build configuration (`__DEBUG` undefined, its
`#define` commented out on line 23), every invocation `DEBUG(format, ...)`
is a no-op: whatever the arguments and however much expansion fuel is
available, the invocation expands to the empty token list, whose rendered
text is empty — no code remains, so no output and no state change. -/
theorem debug_noop_when_undefined (args : List (List Tok)) (fuel : Nat) :
    expandTok commonHppDefault (fuel + 1) (Tok.call "DEBUG" args) = [] ∧
    renderFlat (expandTok commonHppDefault (fuel + 1) (Tok.call "DEBUG" args))
        = some "" :=
  ⟨rfl, rfl⟩

/-- C9: the branch hints are semantically transparent on scalar values:
for every scalar `x`, `likely(x)` and `unlikely(x)` evaluate to the same
value, namely `!!(x)` — 1 when `x` is nonzero and 0 when `x` is zero —
because `__builtin_expect` returns its first argument. -/
theorem likely_unlikely_value_semantics (x : Int) :
    likelyVal x = unlikelyVal x ∧
    likelyVal x = bangBang x ∧
    likelyVal x = (if x = 0 then 0 else 1) :=
  ⟨rfl, rfl, rfl⟩

/-- C10: the definitions of `likely` and `unlikely` are guarded only by
the single name `likely` (line 6 `#ifndef likely`): in every inclusion
context that already defines a macro named `likely`, processing the
header leaves the existing `likely` definition in place and leaves the
lookup of `unlikely` unchanged, whatever it was — there is no separate
guard on the name `unlikely`. -/
theorem predefined_likely_preserved (tbl : MacroTable) (d : MacroDef)
    (h : lookupMac tbl "likely" = some d) :
    lookupMac (processCommonHpp tbl) "likely" = some d ∧
    lookupMac (processCommonHpp tbl) "unlikely" = lookupMac tbl "unlikely" := by
  by_cases hg : isDefinedMac tbl "COMMON_HPP" = true
  · simp [processCommonHpp, hg, h]
  · rw [Bool.not_eq_true] at hg
    unfold isDefinedMac at hg
    constructor <;> simp [processCommonHpp, defineMac, isDefinedMac, lookupMac, hg, h]
    all_goals split
    all_goals simp [lookupMac, h]

theorem predefined_likely_preserved_witness :
    lookupMac (processCommonHpp [("likely", MacroDef.mk none false [Tok.lit "1"])])
        "likely" = some (MacroDef.mk none false [Tok.lit "1"]) ∧
    lookupMac (processCommonHpp [("likely", MacroDef.mk none false [Tok.lit "1"])])
        "unlikely"
      = lookupMac [("likely", MacroDef.mk none false [Tok.lit "1"])] "unlikely" :=
  predefined_likely_preserved [("likely", MacroDef.mk none false [Tok.lit "1"])]
    (MacroDef.mk none false [Tok.lit "1"]) rfl
